import Mathlib

/-!
Shallow embedding of the "Bato-lata" game core (src/can.ts, src/index.tsx).

Conventions of the embedding:
* JavaScript numbers are modelled by exact rationals `ℚ` wherever the claims
  under study do not hinge on floating-point rounding.  The countdown timer,
  whose claim is precisely about the floating-point limit behaviour of
  `timerValue -= 0.1`, is modelled exactly as IEEE-754 binary64 arithmetic:
  every double appearing in that orbit is an integer multiple of 2^-55, so
  the timer value is carried as that integer and subtraction is followed by
  correct round-to-nearest-even to 53 significant bits (see `roundMant`).
* The external collaborators (THREE.js renderer, CANNON.js physics engine)
  are modelled by their observable interface: the physics world's body list
  is a list of body identifiers with CANNON's `addBody` / `removeBody`
  semantics, and the outcome of `world.step` on simulated bodies is an
  adversarial environment input supplied to each animation tick, which
  soundly over-approximates any integrator.
* Angles that the source stores as multiples of π (the grip rotation
  `slipperMesh.rotation.set(Math.PI * 0.1, -Math.PI * 0.1, 0)`) are carried
  as the rational multiplier of π, since the code never computes with them.
-/

/-- A 3-vector with exact rational components (CANNON.Vec3 / THREE.Vector3). -/
structure Vec3 where
  x : ℚ
  y : ℚ
  z : ℚ
deriving DecidableEq, Repr

/-- A quaternion with exact rational components (CANNON.Quaternion). -/
structure Quat where
  x : ℚ
  y : ℚ
  z : ℚ
  w : ℚ
deriving DecidableEq, Repr

/-- The identity quaternion `(0,0,0,1)`. -/
def Quat.id : Quat := ⟨0, 0, 0, 1⟩

/-- The zero vector. -/
def Vec3.zero : Vec3 := ⟨0, 0, 0⟩

/-- CANNON.js `Quaternion.prototype.vmult`: rotate vector `v` by quaternion
`q`, computed as `q * v * q⁻¹` exactly as in the library source. -/
def Quat.vmult (q : Quat) (v : Vec3) : Vec3 :=
  let ix : ℚ := q.w * v.x + q.y * v.z - q.z * v.y
  let iy : ℚ := q.w * v.y + q.z * v.x - q.x * v.z
  let iz : ℚ := q.w * v.z + q.x * v.y - q.y * v.x
  let iw : ℚ := -q.x * v.x - q.y * v.y - q.z * v.z
  { x := ix * q.w + iw * (-q.x) + iy * (-q.z) - iz * (-q.y)
    y := iy * q.w + iw * (-q.y) + iz * (-q.x) - ix * (-q.z)
    z := iz * q.w + iw * (-q.z) + ix * (-q.y) - iy * (-q.x) }

/- ### Constants from src/can.ts -/

def CAN_TARGET_X : ℚ := 0
def CAN_TARGET_Z : ℚ := 120
def CAN_HEIGHT : ℚ := 10
def CAN_HALF_HEIGHT : ℚ := CAN_HEIGHT / 2
def CAN_MASS : ℚ := 15 / 100

/-- State of the `Can` entity (src/can.ts): its CANNON body's pose and
velocities, the sleep flag, the remembered original position, the sticky
knocked-down flag, and the THREE mesh transform kept in sync by `update`. -/
structure CanState where
  pos : Vec3
  quat : Quat
  vel : Vec3
  angvel : Vec3
  sleeping : Bool
  originalPosition : Vec3
  isKnockedDownState : Bool
  meshPos : Vec3
  meshQuat : Quat
deriving DecidableEq, Repr

namespace CanState

/-- `Can.update(isCarried)`: copies the body transform onto the mesh unless
the entity is being carried by an external controller. -/
def update (isCarried : Bool) (c : CanState) : CanState :=
  if isCarried then c
  else { c with meshPos := c.pos, meshQuat := c.quat }

/-- The world-space image of the can's local up axis `(0,1,0)` under the
body's current orientation, as computed inside `Can.checkState`. -/
def worldUp (c : CanState) : Vec3 :=
  c.quat.vmult ⟨0, 1, 0⟩

/-- `Can.checkState()`: returns the fallen classification and the updated
can (the sticky flag may be newly set).  If the sticky flag is already set
it short-circuits to `true`; otherwise the can counts as fallen when the
vertical component of its world-up axis is below the cosine threshold 0.5. -/
def checkState (c : CanState) : Bool × CanState :=
  if c.isKnockedDownState then (true, c)
  else
    let isFallen : Bool := decide ((worldUp c).y < 1/2)
    if isFallen then (true, { c with isKnockedDownState := true })
    else (false, c)

/-- `Can.reset()`: restores the original position, identity orientation,
zero velocities, puts the body to sleep, clears the sticky flag, and
re-syncs the mesh (`this.update(false)`). -/
def reset (c : CanState) : CanState :=
  let c' : CanState :=
    { c with
      pos := c.originalPosition
      quat := Quat.id
      vel := Vec3.zero
      angvel := Vec3.zero
      sleeping := true
      isKnockedDownState := false }
  c'.update false

/-- The can as constructed by `new Can(scene, world)`: at its original
position `(0, CAN_HALF_HEIGHT + 0.1, 120)`, upright, asleep, flag clear,
mesh synced. -/
def init : CanState :=
  let orig : Vec3 := ⟨CAN_TARGET_X, CAN_HALF_HEIGHT + 1/10, CAN_TARGET_Z⟩
  ({ pos := orig
     quat := Quat.id
     vel := Vec3.zero
     angvel := Vec3.zero
     sleeping := true
     originalPosition := orig
     isKnockedDownState := false
     meshPos := orig
     meshQuat := Quat.id } : CanState).update false

end CanState

/-!
### Trajectory predictor (src/index.tsx, `findImpactPoint`)

`findImpactPoint` divides by `currentPoint.y - prevPoint.y` without guarding
against a zero denominator, so a faithful model of JavaScript numbers must
include the IEEE special values that such a division produces.  `JSNum` is
an exact rational together with NaN and the two infinities; the arithmetic
tables below follow the ECMAScript semantics of `+`, `-`, `*`, `/`, `<=`,
`>=` on doubles (negative zero is not distinguished; it never arises in the
inputs considered here).
-/

/-- A JavaScript number: an exact finite value, NaN, `+∞` or `-∞`. -/
inductive JSNum where
  | num (q : ℚ)
  | nan
  | inf
  | ninf
deriving DecidableEq, Repr

namespace JSNum

/-- ECMAScript addition on doubles (exact in the finite case). -/
def add : JSNum → JSNum → JSNum
  | nan, _ => nan
  | _, nan => nan
  | inf, ninf => nan
  | ninf, inf => nan
  | inf, _ => inf
  | _, inf => inf
  | ninf, _ => ninf
  | _, ninf => ninf
  | num a, num b => num (a + b)

/-- ECMAScript subtraction on doubles (exact in the finite case). -/
def sub : JSNum → JSNum → JSNum
  | nan, _ => nan
  | _, nan => nan
  | inf, inf => nan
  | ninf, ninf => nan
  | inf, _ => inf
  | ninf, _ => ninf
  | _, inf => ninf
  | _, ninf => inf
  | num a, num b => num (a - b)

/-- ECMAScript multiplication on doubles (exact in the finite case). -/
def mul : JSNum → JSNum → JSNum
  | nan, _ => nan
  | _, nan => nan
  | inf, num b => if b = 0 then nan else if 0 < b then inf else ninf
  | ninf, num b => if b = 0 then nan else if 0 < b then ninf else inf
  | num a, inf => if a = 0 then nan else if 0 < a then inf else ninf
  | num a, ninf => if a = 0 then nan else if 0 < a then ninf else inf
  | inf, inf => inf
  | inf, ninf => ninf
  | ninf, inf => ninf
  | ninf, ninf => inf
  | num a, num b => num (a * b)

/-- ECMAScript division on doubles: `0/0 = NaN`, `a/0 = ±∞` for `a ≠ 0`
(the dividend zero here is `+0`). -/
def div : JSNum → JSNum → JSNum
  | nan, _ => nan
  | _, nan => nan
  | inf, inf => nan
  | inf, ninf => nan
  | ninf, inf => nan
  | ninf, ninf => nan
  | inf, num b => if 0 ≤ b then inf else ninf
  | ninf, num b => if 0 ≤ b then ninf else inf
  | num _, inf => num 0
  | num _, ninf => num 0
  | num a, num b =>
      if b = 0 then
        if a = 0 then nan else if 0 < a then inf else ninf
      else num (a / b)

/-- ECMAScript `<=` on doubles: any comparison with NaN is false. -/
def le : JSNum → JSNum → Bool
  | nan, _ => false
  | _, nan => false
  | ninf, _ => true
  | _, inf => true
  | inf, _ => false
  | _, ninf => false
  | num a, num b => decide (a ≤ b)

/-- ECMAScript `>=` on doubles, i.e. `b <= a` with NaN always false. -/
def ge (a b : JSNum) : Bool := le b a

end JSNum

/-- A 3-vector of JavaScript numbers (a `THREE.Vector3` whose components
may have become NaN). -/
structure JVec3 where
  x : JSNum
  y : JSNum
  z : JSNum
deriving DecidableEq, Repr

/-- Embed an exact rational point into `JVec3`. -/
def Vec3.toJ (v : Vec3) : JVec3 := ⟨.num v.x, .num v.y, .num v.z⟩

/-- `findImpactPoint(points, groundLevel)` from src/index.tsx: walk the
consecutive pairs of the sample list in order; at the first pair with
`prevPoint.y >= groundLevel && currentPoint.y <= groundLevel` return the
linearly interpolated point (with `y` set to `groundLevel` directly); if
the loop finishes, return `null`. -/
def findImpactPoint : List JVec3 → JSNum → Option JVec3
  | [], _ => none
  | [_], _ => none
  | p :: q :: rest, g =>
      if (JSNum.ge p.y g && JSNum.le q.y g) = true then
        let t : JSNum := JSNum.div (JSNum.sub g p.y) (JSNum.sub q.y p.y)
        some
          { x := JSNum.add p.x (JSNum.mul t (JSNum.sub q.x p.x))
            y := g
            z := JSNum.add p.z (JSNum.mul t (JSNum.sub q.z p.z)) }
      else findImpactPoint (q :: rest) g

/-- Whether two consecutive samples bracket the target height the way the
source's guard tests it: previous height at or above, current at or below. -/
def bracketsBelow (g : ℚ) (p q : Vec3) : Prop := g ≤ p.y ∧ q.y ≤ g

instance (g : ℚ) (p q : Vec3) : Decidable (bracketsBelow g p q) := by
  unfold bracketsBelow; infer_instance

/-- Some consecutive pair of the list satisfies the source's bracketing
guard. -/
def hasBracket (g : ℚ) : List Vec3 → Prop
  | [] => False
  | [_] => False
  | p :: q :: rest => bracketsBelow g p q ∨ hasBracket g (q :: rest)

/-- The exact linear interpolation the source computes between a bracketing
pair with distinct heights: the point on segment `p q` at height `g`. -/
def interpPoint (g : ℚ) (p q : Vec3) : Vec3 :=
  let t : ℚ := (g - p.y) / (q.y - p.y)
  ⟨p.x + t * (q.x - p.x), g, p.z + t * (q.z - p.z)⟩

/-- The first consecutive pair satisfying the source's bracketing guard,
in the scan order of `findImpactPoint`. -/
def firstBracket (g : ℚ) : List Vec3 → Option (Vec3 × Vec3)
  | [] => none
  | [_] => none
  | p :: q :: rest =>
      if bracketsBelow g p q then some (p, q) else firstBracket g (q :: rest)

/-!
### The countdown timer as exact IEEE-754 binary64 arithmetic

`startTimer` runs `timerValue -= 0.1` every 100 ms.  The double nearest 0.1
is `3602879701896397 · 2⁻⁵⁵`, and 15.0 is `15 · 2⁵⁵ · 2⁻⁵⁵`; every value in
the orbit of repeated correctly-rounded subtraction is an integer multiple
of 2⁻⁵⁵ (rounding only ever discards low-order bits).  The timer value is
therefore carried as that integer.  Subtraction of two such values is exact
in the integers; the binary64 result is obtained by rounding the magnitude
to 53 significant bits with round-half-to-even, which is exactly IEEE
round-to-nearest-even for normal numbers (every value here is far inside
the normal range, and no overflow can occur).
-/

/-- The number of binary digits of `n`, for `n < 2¹²⁸` (every magnitude in
the timer orbit is below 2⁶⁰).  Written as a fold so that it reduces by
plain iota/delta reduction. -/
def bitLen (n : ℕ) : ℕ :=
  (List.range 128).foldl (fun acc L => if 2 ^ L ≤ n then L + 1 else acc) 0

/-- Round a positive integer magnitude to 53 significant bits,
half-to-even, returning the rounded magnitude (round-to-nearest-even of a
binary64 mantissa). -/
def roundMant (b : ℕ) : ℕ :=
  let L := bitLen b
  if L ≤ 53 then b
  else
    let drop := L - 53
    let q := b / 2 ^ drop
    let r := b % 2 ^ drop
    let half := 2 ^ (drop - 1)
    let q' := if r < half then q else if half < r then q + 1
              else if q % 2 = 0 then q else q + 1
    q' * 2 ^ drop

/-- Binary64 subtraction on timer values carried in units of 2⁻⁵⁵. -/
def fsub55 (n m : ℤ) : ℤ :=
  let d := n - m
  if d = 0 then 0
  else (if d < 0 then -1 else 1) * (roundMant d.natAbs : ℤ)

/-- The double literal `0.1`, in units of 2⁻⁵⁵. -/
def d01 : ℤ := 3602879701896397

/-- `TIMER_DURATION = 15.0`, in units of 2⁻⁵⁵. -/
def TIMER_DURATION : ℤ := 15 * 2 ^ 55

/-- The timer value after `k` interval ticks of `timerValue -= 0.1`
starting from `TIMER_DURATION`, in units of 2⁻⁵⁵ (exact binary64 orbit). -/
def timerAfter : ℕ → ℤ
  | 0 => TIMER_DURATION
  | k + 1 => fsub55 (timerAfter k) d01

/-- The value the timer display shows (before decimal formatting):
`Math.max(0, timerValue)`, in units of 2⁻⁵⁵. -/
def displayedTimer (n : ℤ) : ℤ := max 0 n

/-!
### Round/state coordinator (src/index.tsx)

The physics world's body list is modelled as a list of body identifiers;
`addBody` and `removeBody` follow CANNON.js `World.prototype.addBody`
(which returns without effect when the body is already present) and
`World.prototype.removeBody` (which splices out the body's occurrence).
The renderer, the player-movement integration and the outcome of
`world.step` on simulated bodies are supplied as adversarial environment
inputs to each event, which over-approximates every actual camera pose,
player path and physics trajectory.
-/

/- Constants from src/index.tsx. -/
def THROW_STRENGTH : ℚ := 302
def SLIPPER_HALF_HEIGHT : ℚ := 3 / 2
def SLIPPER_MASS : ℚ := 1
def HORIZONTAL_SPIN_STRENGTH : ℚ := 12
def FOUL_LINE_Z : ℚ := -100
def PICKUP_RADIUS : ℚ := 60

/-- The identifier of the slipper's CANNON body. -/
def slipperId : ℕ := 0

/-- The bodies admitted to the world during `init()`: ground plane, four
walls, and the can (the slipper body is created but never added there). -/
def initialWorldBodies : List ℕ := [1, 2, 3, 4, 5, 6]

/-- CANNON.js `World.prototype.addBody`: a no-op when the body is already
in the list, otherwise appended at the end. -/
def World.addBody (w : List ℕ) (b : ℕ) : List ℕ :=
  if b ∈ w then w else w ++ [b]

/-- CANNON.js `World.prototype.removeBody`: splices the body's occurrence
out of the list. -/
def World.removeBody (w : List ℕ) (b : ℕ) : List ℕ := w.erase b

/-- The guarded exclusion the source performs both in the pickup handler
and in `resetGameComponents`:
`if (world.bodies.includes(slipperBody)) world.removeBody(slipperBody)`. -/
def removeSlipperGuarded (w : List ℕ) : List ℕ :=
  if slipperId ∈ w then World.removeBody w slipperId else w

/-- CANNON body kind (`CANNON.Body.STATIC` / `CANNON.Body.DYNAMIC`). -/
inductive BodyType where
  | static
  | dynamic
deriving DecidableEq, Repr

/-- State of the slipper's CANNON body. -/
structure SlipperBody where
  pos : Vec3
  quat : Quat
  vel : Vec3
  angvel : Vec3
  mass : ℚ
  btype : BodyType
  sleeping : Bool
deriving DecidableEq, Repr

/-- Euler angles carried as rational multiples of π (the source only ever
assigns constant multiples of π to mesh rotations). -/
structure Euler where
  xPi : ℚ
  yPi : ℚ
  zPi : ℚ
deriving DecidableEq, Repr

/-- A THREE mesh orientation: set as Euler angles while gripped, or synced
from the body quaternion while flying. -/
inductive MeshRot where
  | euler (e : Euler)
  | quat (q : Quat)
deriving DecidableEq, Repr

/-- Which scene-graph node owns the slipper mesh. -/
inductive MeshParent where
  | camera
  | scene
deriving DecidableEq, Repr

/-- The grip pose: `slipperMesh.position.set(10, -10, -20)` and
`slipperMesh.rotation.set(Math.PI * 0.1, -Math.PI * 0.1, 0)`. -/
def GRIP_POS : Vec3 := ⟨10, -10, -20⟩
def GRIP_ROT : Euler := ⟨1/10, -1/10, 0⟩

/-- The mutable game globals of src/index.tsx that the claims concern.
`timerRunning` models whether the `setInterval` countdown is scheduled;
`timerValue` is the binary64 timer in units of 2⁻⁵⁵.  Pure-rendering
state (guide line, impact marker, status labels) is not carried. -/
structure GameState where
  isSlipperHeld : Bool
  isMouseDown : Bool
  hitCount : ℕ
  isCanKnockedOverWaitingForReset : Bool
  isGameOver : Bool
  timerValue : ℤ
  timerRunning : Bool
  can : CanState
  slipper : SlipperBody
  slipperParent : MeshParent
  slipperMeshPos : Vec3
  slipperMeshRot : MeshRot
  worldBodies : List ℕ
deriving DecidableEq, Repr

namespace GameState

/-- `startTimer()`: cancels any scheduled interval, restores the full
duration, and schedules a fresh interval. -/
def startTimer (s : GameState) : GameState :=
  { s with timerRunning := true, timerValue := TIMER_DURATION }

/-- `stopTimer()`: clears the interval. -/
def stopTimer (s : GameState) : GameState :=
  { s with timerRunning := false }

/-- `resetTimer()`: restores the displayed value to the full duration
(does not touch the interval). -/
def resetTimer (s : GameState) : GameState :=
  { s with timerValue := TIMER_DURATION }

/-- `triggerGameOver()`: a no-op if the game is already over; otherwise
marks the game over and stops the timer (the unlock and the final-score
display are rendering). -/
def triggerGameOver (s : GameState) : GameState :=
  if s.isGameOver then s
  else stopTimer { s with isGameOver := true }

/-- One `setInterval` callback of `startTimer`: decrement by the double
0.1, then trigger game over when the value is at or below zero. -/
def timerTick (s : GameState) : GameState :=
  let s' := { s with timerValue := fsub55 s.timerValue d01 }
  if s'.timerValue ≤ 0 then s'.triggerGameOver else s'

/-- `resetGameComponents(fullReset)`: stop and reset the timer, reset the
can, force the slipper into the held configuration (zero mass, static,
guarded removal from the world, re-parented to the camera at the grip
pose), clear the input and waiting flags, and on a full reset clear the
score.  (`updateMassProperties()` only refreshes engine internals.) -/
def resetGameComponents (fullReset : Bool) (s : GameState) : GameState :=
  let s₁ := s.stopTimer.resetTimer
  let s₂ := { s₁ with can := s₁.can.reset }
  let s₃ :=
    { s₂ with
      slipper := { s₂.slipper with mass := 0, btype := .static }
      worldBodies := removeSlipperGuarded s₂.worldBodies
      slipperParent := .camera
      slipperMeshPos := GRIP_POS
      slipperMeshRot := .euler GRIP_ROT
      isSlipperHeld := true
      isMouseDown := false
      isCanKnockedOverWaitingForReset := false }
  if fullReset then { s₃ with hitCount := 0 } else s₃

/-- `restartGame()`: leave the game-over state, zero the score, reset the
timer display, and perform a full component reset. -/
def restartGame (s : GameState) : GameState :=
  (resetTimer { s with isGameOver := false, hitCount := 0 }).resetGameComponents true

end GameState

/-- The state of the globals after module initialisation and `init()`,
which ends with `resetGameComponents(true)`: slipper held at the grip
pose, body never admitted to the world, can upright and asleep, score 0,
timer idle at the full duration. -/
def initialState : GameState :=
  GameState.resetGameComponents true
    { isSlipperHeld := true
      isMouseDown := false
      hitCount := 0
      isCanKnockedOverWaitingForReset := false
      isGameOver := false
      timerValue := TIMER_DURATION
      timerRunning := false
      can := CanState.init
      slipper :=
        { pos := Vec3.zero, quat := Quat.id, vel := Vec3.zero
          angvel := Vec3.zero, mass := SLIPPER_MASS, btype := .dynamic
          sleeping := false }
      slipperParent := .scene
      slipperMeshPos := Vec3.zero
      slipperMeshRot := .euler ⟨-1/2, 0, 0⟩
      worldBodies := initialWorldBodies }

/-- Squared Euclidean distance.  The source compares
`playerPos.distanceTo(slipperPos) <= PICKUP_RADIUS`; since both sides are
non-negative this is equivalent to comparing the squared distance against
`PICKUP_RADIUS ^ 2`, which keeps the model inside the rationals. -/
def distSq (p q : Vec3) : ℚ :=
  (p.x - q.x) ^ 2 + (p.y - q.y) ^ 2 + (p.z - q.z) ^ 2

/-- `onMouseDownHandler` (src/index.tsx): on a locked left-button press,
either arm the throw (slipper held) or attempt a pickup (slipper on the
field): within the pickup radius of the mesh's world position the body is
made massless and static, removed from the world behind a membership
guard, and the mesh is re-parented to the camera at the grip pose.  The
pickup does not touch the body's velocities. -/
def onMouseDown (locked : Bool) (button : ℕ) (playerPos : Vec3) (s : GameState) :
    GameState :=
  if locked && (button == 0) then
    if s.isSlipperHeld then { s with isMouseDown := true }
    else if distSq playerPos s.slipperMeshPos ≤ PICKUP_RADIUS ^ 2 then
      { s with
        slipper := { s.slipper with mass := 0, btype := .static }
        worldBodies := removeSlipperGuarded s.worldBodies
        slipperParent := .camera
        slipperMeshPos := GRIP_POS
        slipperMeshRot := .euler GRIP_ROT
        isSlipperHeld := true }
    else s
  else s

/-- Environment of a mouse-up event: pointer-lock state, button, the
player's position, the held mesh's world pose as reported by the
renderer, the camera orientation, and the throw's random draws
(`Math.random()` values for the two tumble axes and the spin-sign coin). -/
structure ThrowEnv where
  locked : Bool
  button : ℕ
  playerZ : ℚ
  meshWorldPos : Vec3
  meshWorldQuat : Quat
  camQuat : Quat
  r1 : ℚ
  r3 : ℚ
  spinPositive : Bool

/-- `onMouseUpHandler` (src/index.tsx): a release while locked, held and
armed is first checked against the foul line — a player position with
`z > FOUL_LINE_Z` swallows the input.  Otherwise the throw happens: the
body takes the mesh's world pose, becomes dynamic with nominal mass, is
admitted to the world, receives velocity `camForward * (302 / 1)` and the
randomized angular velocity, is woken, and the mesh moves to the scene. -/
def onMouseUp (e : ThrowEnv) (s : GameState) : GameState :=
  if e.locked && s.isSlipperHeld && s.isMouseDown && (e.button == 0) then
    if FOUL_LINE_Z < e.playerZ then { s with isMouseDown := false }
    else
      let dir := e.camQuat.vmult ⟨0, 0, -1⟩
      let launchSpeed := THROW_STRENGTH / SLIPPER_MASS
      let v : Vec3 := ⟨dir.x * launchSpeed, dir.y * launchSpeed, dir.z * launchSpeed⟩
      { s with
        isSlipperHeld := false
        slipper :=
          { pos := e.meshWorldPos
            quat := e.meshWorldQuat
            vel := v
            angvel :=
              ⟨(e.r1 - 1/2) * 3,
               (if e.spinPositive then 1 else -1) * HORIZONTAL_SPIN_STRENGTH,
               (e.r3 - 1/2) * 3⟩
            mass := SLIPPER_MASS
            btype := .dynamic
            sleeping := false }
        worldBodies := World.addBody s.worldBodies slipperId
        slipperParent := .scene
        isMouseDown := false }
  else { s with isMouseDown := false }

/-- Environment of one animation frame: pointer-lock state, the player
position after movement and clamping, and the poses/velocities that
`world.step` leaves on the simulated bodies (adversarial). -/
structure TickEnv where
  locked : Bool
  playerPos : Vec3
  canPos : Vec3
  canQuat : Quat
  canVel : Vec3
  canAngvel : Vec3
  canSleeping : Bool
  slipPos : Vec3
  slipQuat : Quat
  slipVel : Vec3
  slipAngvel : Vec3
  slipSleeping : Bool

/-- The `world.step(...)` call of `animate`: the integrator updates the
bodies currently in the world (the can always is; the slipper only while
admitted).  The engine never touches the sticky fallen flag, the stored
original position, or the body list. -/
def physicsStep (e : TickEnv) (s : GameState) : GameState :=
  let s₁ :=
    { s with
      can := { s.can with
               pos := e.canPos, quat := e.canQuat, vel := e.canVel
               angvel := e.canAngvel, sleeping := e.canSleeping } }
  if slipperId ∈ s₁.worldBodies then
    { s₁ with
      slipper := { s₁.slipper with
                   pos := e.slipPos, quat := e.slipQuat, vel := e.slipVel
                   angvel := e.slipAngvel, sleeping := e.slipSleeping } }
  else s₁

/-- `checkCanState()` (src/index.tsx): a no-op while already waiting for a
reset or after game over; otherwise samples the sticky flag before and
after `can.checkState()` and, exactly on the false→true rising edge,
enters the waiting phase and starts the countdown. -/
def checkCanStatePhase (s : GameState) : GameState :=
  if s.isCanKnockedOverWaitingForReset || s.isGameOver then s
  else
    let wasKnockedDown := s.can.isKnockedDownState
    let res := s.can.checkState
    let s₁ := { s with can := res.2 }
    if res.1 && !wasKnockedDown then
      GameState.startTimer { s₁ with isCanKnockedOverWaitingForReset := true }
    else s₁

/-- The throwing-zone / can-reset block of `animate`: only while the
pointer is locked, if the can is waiting for a reset, the slipper is held
and the player is behind the foul line, score one point, stop and reset
the countdown, reset the can and return to the idle phase. -/
def scorePhase (locked : Bool) (playerZ : ℚ) (s : GameState) : GameState :=
  if locked then
    let isBehindLine : Bool := decide (playerZ < FOUL_LINE_Z)
    if s.isCanKnockedOverWaitingForReset && s.isSlipperHeld && isBehindLine then
      let s₁ := GameState.resetTimer (GameState.stopTimer { s with hitCount := s.hitCount + 1 })
      { s₁ with can := s₁.can.reset, isCanKnockedOverWaitingForReset := false }
    else s
  else s

/-- The mesh re-synchronisation of `animate`: `can.update(false)` plus the
slipper-mesh sync from its body while not held. -/
def meshSyncPhase (s : GameState) : GameState :=
  let s₁ := { s with can := s.can.update false }
  if !s₁.isSlipperHeld then
    { s₁ with
      slipperMeshPos := s₁.slipper.pos
      slipperMeshRot := .quat s₁.slipper.quat }
  else s₁

/-- One call of `animate()` (src/index.tsx), minus pure rendering: after
game over nothing but rendering happens; otherwise the physics world
steps, the can and (when flying) the slipper meshes re-sync from their
bodies, the knockdown detector runs, and the zone/score block runs. -/
def animateTick (e : TickEnv) (s : GameState) : GameState :=
  if s.isGameOver then s
  else
    scorePhase e.locked e.playerPos.z
      (checkCanStatePhase (meshSyncPhase (physicsStep e s)))

/-- The discrete events that drive the session: animation frames, countdown
interval callbacks (only while the interval is scheduled), mouse presses,
mouse releases, and the play-again command. -/
inductive Step : GameState → GameState → Prop
  | tick (e : TickEnv) (s : GameState) : Step s (animateTick e s)
  | timer (s : GameState) : s.timerRunning = true → Step s s.timerTick
  | mouseDown (locked : Bool) (button : ℕ) (p : Vec3) (s : GameState) :
      Step s (onMouseDown locked button p s)
  | mouseUp (e : ThrowEnv) (s : GameState) : Step s (onMouseUp e s)
  | restart (s : GameState) : Step s s.restartGame

/-- States reachable from the initial session state. -/
def Reachable (s : GameState) : Prop :=
  Relation.ReflTransGen Step initialState s

/-- The round phase of §4.4: `Expired` once the game is over, otherwise
`AwaitingReset` while the can awaits its reset, otherwise `Idle`. -/
inductive Phase where
  | idle
  | awaitingReset
  | expired
deriving DecidableEq, Repr

/-- The phase encoded by the coordinator's two boolean flags. -/
def phase (s : GameState) : Phase :=
  if s.isGameOver then .expired
  else if s.isCanKnockedOverWaitingForReset then .awaitingReset
  else .idle

/-- Coordinator invariant maintained by every event: the countdown
interval is scheduled exactly in the `AwaitingReset` phase; a held slipper
is never a member of the physics world; and the slipper body never has a
duplicate world membership. -/
def CoordInv (s : GameState) : Prop :=
  s.timerRunning = (s.isCanKnockedOverWaitingForReset && !s.isGameOver)
  ∧ (s.isSlipperHeld = true → slipperId ∉ s.worldBodies)
  ∧ s.worldBodies.count slipperId ≤ 1

/-! ### Concrete states and inputs used by witnesses and counterexamples -/

/-- A can lying on its side: orientation `(1,0,0,0)` (a half-turn about x),
whose rotated up-axis has vertical component `-1`. -/
def fallenCanExample : CanState := { CanState.init with quat := ⟨1, 0, 0, 0⟩ }

/-- A can whose sticky fallen flag is already set. -/
def stuckCanExample : CanState := { CanState.init with isKnockedDownState := true }

/-- Two consecutive trajectory samples whose heights both equal the target
height `SLIPPER_HALF_HEIGHT = 1.5` exactly. -/
def c10Points : List JVec3 :=
  [⟨.num 0, .num (3/2), .num 0⟩, ⟨.num 1, .num (3/2), .num 1⟩]

/-- Samples that cross the target height upward only: heights 0 then 2
against target height 1 — a sign change of `height - target` with a
crossing inside the segment. -/
def c6CexPoints : List Vec3 := [⟨0, 0, 0⟩, ⟨0, 2, 0⟩]

/-- A held-and-armed game state with everything concrete: slipper gripped
(massless static body outside the world), can upright, score 0. -/
def c2State : GameState :=
  { isSlipperHeld := true
    isMouseDown := true
    hitCount := 0
    isCanKnockedOverWaitingForReset := false
    isGameOver := false
    timerValue := TIMER_DURATION
    timerRunning := false
    can := CanState.init
    slipper :=
      { pos := Vec3.zero, quat := Quat.id, vel := Vec3.zero
        angvel := Vec3.zero, mass := 0, btype := .static, sleeping := false }
    slipperParent := .camera
    slipperMeshPos := GRIP_POS
    slipperMeshRot := .euler GRIP_ROT
    worldBodies := initialWorldBodies }

/-- A release attempt with the holder standing exactly on the foul line
(`z = -100`), aiming straight ahead with deterministic random draws. -/
def c2Env : ThrowEnv :=
  { locked := true
    button := 0
    playerZ := -100
    meshWorldPos := ⟨10, 20, -120⟩
    meshWorldQuat := Quat.id
    camQuat := Quat.id
    r1 := 1/2
    r3 := 1/2
    spinPositive := true }

/-- A flying-slipper state with everything concrete: the slipper body is
dynamic, in the world, moving at `(5,0,0)`, its mesh at the origin. -/
def c7State : GameState :=
  { isSlipperHeld := false
    isMouseDown := false
    hitCount := 0
    isCanKnockedOverWaitingForReset := false
    isGameOver := false
    timerValue := TIMER_DURATION
    timerRunning := false
    can := CanState.init
    slipper :=
      { pos := Vec3.zero, quat := Quat.id, vel := ⟨5, 0, 0⟩
        angvel := Vec3.zero, mass := SLIPPER_MASS, btype := .dynamic, sleeping := false }
    slipperParent := .scene
    slipperMeshPos := Vec3.zero
    slipperMeshRot := .quat Quat.id
    worldBodies := initialWorldBodies ++ [slipperId] }

/-- An `AwaitingReset` state: can fallen with its sticky flag set, slipper
held, countdown running, game not over. -/
def c1State : GameState :=
  { c2State with
    isMouseDown := false
    isCanKnockedOverWaitingForReset := true
    timerRunning := true
    can := { CanState.init with quat := ⟨1, 0, 0, 0⟩, isKnockedDownState := true } }

/-- A tick environment with the pointer NOT locked and the holder standing
at `z = -150`, well behind the foul line; the physics step leaves the
fallen can and the (excluded) slipper body in place. -/
def c1Env : TickEnv :=
  { locked := false
    playerPos := ⟨0, 30, -150⟩
    canPos := CanState.init.pos
    canQuat := ⟨1, 0, 0, 0⟩
    canVel := Vec3.zero
    canAngvel := Vec3.zero
    canSleeping := true
    slipPos := Vec3.zero
    slipQuat := Quat.id
    slipVel := Vec3.zero
    slipAngvel := Vec3.zero
    slipSleeping := false }

/-- The same tick environment with the pointer locked. -/
def c1EnvLocked : TickEnv := { c1Env with locked := true }

/-! ### Helper lemmas shared by the claim theorems -/

theorem physicsStep_scalars (e : TickEnv) (s : GameState) :
    (physicsStep e s).isSlipperHeld = s.isSlipperHeld
    ∧ (physicsStep e s).isMouseDown = s.isMouseDown
    ∧ (physicsStep e s).hitCount = s.hitCount
    ∧ (physicsStep e s).isCanKnockedOverWaitingForReset = s.isCanKnockedOverWaitingForReset
    ∧ (physicsStep e s).isGameOver = s.isGameOver
    ∧ (physicsStep e s).timerValue = s.timerValue
    ∧ (physicsStep e s).timerRunning = s.timerRunning
    ∧ (physicsStep e s).worldBodies = s.worldBodies
    ∧ (physicsStep e s).can.isKnockedDownState = s.can.isKnockedDownState
    ∧ (physicsStep e s).can.originalPosition = s.can.originalPosition := by
  unfold physicsStep
  dsimp only
  split <;> simp

theorem meshSyncPhase_scalars (s : GameState) :
    (meshSyncPhase s).isSlipperHeld = s.isSlipperHeld
    ∧ (meshSyncPhase s).isMouseDown = s.isMouseDown
    ∧ (meshSyncPhase s).hitCount = s.hitCount
    ∧ (meshSyncPhase s).isCanKnockedOverWaitingForReset = s.isCanKnockedOverWaitingForReset
    ∧ (meshSyncPhase s).isGameOver = s.isGameOver
    ∧ (meshSyncPhase s).timerValue = s.timerValue
    ∧ (meshSyncPhase s).timerRunning = s.timerRunning
    ∧ (meshSyncPhase s).worldBodies = s.worldBodies
    ∧ (meshSyncPhase s).slipper = s.slipper
    ∧ (meshSyncPhase s).can.isKnockedDownState = s.can.isKnockedDownState
    ∧ (meshSyncPhase s).can.originalPosition = s.can.originalPosition := by
  unfold meshSyncPhase CanState.update
  dsimp only
  split <;> simp

theorem checkCanStatePhase_scalars (s : GameState) :
    (checkCanStatePhase s).isSlipperHeld = s.isSlipperHeld
    ∧ (checkCanStatePhase s).isMouseDown = s.isMouseDown
    ∧ (checkCanStatePhase s).hitCount = s.hitCount
    ∧ (checkCanStatePhase s).isGameOver = s.isGameOver
    ∧ (checkCanStatePhase s).worldBodies = s.worldBodies
    ∧ (checkCanStatePhase s).slipper = s.slipper := by
  unfold checkCanStatePhase GameState.startTimer
  dsimp only
  split
  · simp
  · split <;> simp

theorem scorePhase_scalars (locked : Bool) (z : ℚ) (s : GameState) :
    (scorePhase locked z s).isSlipperHeld = s.isSlipperHeld
    ∧ (scorePhase locked z s).isMouseDown = s.isMouseDown
    ∧ (scorePhase locked z s).isGameOver = s.isGameOver
    ∧ (scorePhase locked z s).worldBodies = s.worldBodies
    ∧ (scorePhase locked z s).slipper = s.slipper := by
  unfold scorePhase GameState.stopTimer GameState.resetTimer
  dsimp only
  split
  · split <;> simp
  · simp

theorem checkCanStatePhase_timer (s : GameState)
    (h : s.timerRunning = (s.isCanKnockedOverWaitingForReset && !s.isGameOver)) :
    (checkCanStatePhase s).timerRunning
      = ((checkCanStatePhase s).isCanKnockedOverWaitingForReset
          && !(checkCanStatePhase s).isGameOver) := by
  unfold checkCanStatePhase GameState.startTimer
  dsimp only
  split
  · exact h
  · next hguard =>
      split <;> simp_all

theorem scorePhase_timer (locked : Bool) (z : ℚ) (s : GameState)
    (h : s.timerRunning = (s.isCanKnockedOverWaitingForReset && !s.isGameOver)) :
    (scorePhase locked z s).timerRunning
      = ((scorePhase locked z s).isCanKnockedOverWaitingForReset
          && !(scorePhase locked z s).isGameOver) := by
  unfold scorePhase GameState.stopTimer GameState.resetTimer
  dsimp only
  split
  · split <;> simp_all
  · exact h

theorem not_mem_removeSlipperGuarded (w : List ℕ) (h : w.count slipperId ≤ 1) :
    slipperId ∉ removeSlipperGuarded w := by
  unfold removeSlipperGuarded World.removeBody
  split
  · next hmem =>
      intro hmem'
      have h1 : 0 < (w.erase slipperId).count slipperId := List.count_pos_iff.mpr hmem'
      have h2 : (w.erase slipperId).count slipperId = w.count slipperId - 1 :=
        List.count_erase_self slipperId w
      have h3 : 0 < w.count slipperId := List.count_pos_iff.mpr hmem
      omega
  · assumption

theorem count_removeSlipperGuarded (w : List ℕ) (h : w.count slipperId ≤ 1) :
    (removeSlipperGuarded w).count slipperId ≤ 1 := by
  unfold removeSlipperGuarded World.removeBody
  split
  · have h2 : (w.erase slipperId).count slipperId = w.count slipperId - 1 :=
      List.count_erase_self slipperId w
    omega
  · exact h

theorem coordInv_init : CoordInv initialState := by
  refine ⟨by decide, fun _ => by decide, by decide⟩

theorem coordInv_tick (e : TickEnv) (s : GameState) (h : CoordInv s) :
    CoordInv (animateTick e s) := by
  obtain ⟨h1, h2, h3⟩ := h
  unfold animateTick
  split
  · exact ⟨h1, h2, h3⟩
  · obtain ⟨p1, p2, p3, p4, p5, p6, p7, p8, p9, p10⟩ := physicsStep_scalars e s
    obtain ⟨m1, m2, m3, m4, m5, m6, m7, m8, m9, m10, m11⟩ :=
      meshSyncPhase_scalars (physicsStep e s)
    obtain ⟨c1, c2, c3, c4, c5, c6⟩ :=
      checkCanStatePhase_scalars (meshSyncPhase (physicsStep e s))
    obtain ⟨q1, q2, q3, q4, q5⟩ :=
      scorePhase_scalars e.locked e.playerPos.z
        (checkCanStatePhase (meshSyncPhase (physicsStep e s)))
    have h1' : (meshSyncPhase (physicsStep e s)).timerRunning
        = ((meshSyncPhase (physicsStep e s)).isCanKnockedOverWaitingForReset
            && !(meshSyncPhase (physicsStep e s)).isGameOver) := by
      rw [m7, p7, m4, p4, m5, p5, h1]
    refine ⟨scorePhase_timer _ _ _ (checkCanStatePhase_timer _ h1'), ?_, ?_⟩
    · intro hh
      rw [q1, c1, m1, p1] at hh
      rw [q4, c5, m8, p8]
      exact h2 hh
    · rw [q4, c5, m8, p8]
      exact h3

theorem coordInv_timerTick (s : GameState) (h : CoordInv s) :
    CoordInv s.timerTick := by
  obtain ⟨h1, h2, h3⟩ := h
  unfold GameState.timerTick GameState.triggerGameOver GameState.stopTimer
  dsimp only
  split
  · split
    · exact ⟨h1, h2, h3⟩
    · exact ⟨by simp, h2, h3⟩
  · exact ⟨h1, h2, h3⟩

theorem coordInv_mouseDown (locked : Bool) (button : ℕ) (p : Vec3) (s : GameState)
    (h : CoordInv s) : CoordInv (onMouseDown locked button p s) := by
  obtain ⟨h1, h2, h3⟩ := h
  unfold onMouseDown
  split
  · split
    · exact ⟨h1, h2, h3⟩
    · split
      · exact ⟨h1, fun _ => not_mem_removeSlipperGuarded _ h3,
          count_removeSlipperGuarded _ h3⟩
      · exact ⟨h1, h2, h3⟩
  · exact ⟨h1, h2, h3⟩

theorem coordInv_mouseUp (e : ThrowEnv) (s : GameState) (h : CoordInv s) :
    CoordInv (onMouseUp e s) := by
  obtain ⟨h1, h2, h3⟩ := h
  unfold onMouseUp World.addBody
  dsimp only
  split
  · next hguard =>
      split
      · exact ⟨h1, h2, h3⟩
      · have hheld : s.isSlipperHeld = true := by
          cases hs : s.isSlipperHeld <;> simp_all
        have hnot : slipperId ∉ s.worldBodies := h2 hheld
        have hcount : s.worldBodies.count slipperId = 0 :=
          List.count_eq_zero.mpr hnot
        refine ⟨h1, by intro hh; simp_all, ?_⟩
        rw [if_neg hnot]
        simp [List.count_append, hcount]
  · exact ⟨h1, h2, h3⟩

theorem coordInv_restart (s : GameState) (h : CoordInv s) :
    CoordInv s.restartGame := by
  obtain ⟨h1, h2, h3⟩ := h
  unfold GameState.restartGame GameState.resetGameComponents GameState.stopTimer
    GameState.resetTimer
  dsimp only
  exact ⟨rfl, fun _ => not_mem_removeSlipperGuarded _ h3,
    count_removeSlipperGuarded _ h3⟩

theorem coordInv_step (a b : GameState) (hstep : Step a b) (h : CoordInv a) :
    CoordInv b :=
  match hstep with
  | .tick e s => coordInv_tick e s h
  | .timer s _ => coordInv_timerTick s h
  | .mouseDown locked button p s => coordInv_mouseDown locked button p s h
  | .mouseUp e s => coordInv_mouseUp e s h
  | .restart s => coordInv_restart s h

theorem coordInv_reachable (s : GameState) (h : Reachable s) : CoordInv s := by
  induction h with
  | refl => exact coordInv_init
  | tail hab hstep ih => exact coordInv_step _ _ hstep ih

/-! ### Claim theorems: the Can entity and the trajectory resolver -/



theorem claim_C3_checkState :
    (∀ c : CanState, c.isKnockedDownState = false → 1/2 ≤ (CanState.worldUp c).y →
      (CanState.checkState c).1 = false ∧ (CanState.checkState c).2 = c)
    ∧ (∀ c : CanState, c.isKnockedDownState = false → (CanState.worldUp c).y < 1/2 →
      (CanState.checkState c).1 = true ∧ (CanState.checkState c).2.isKnockedDownState = true)
    ∧ (∀ c : CanState, c.isKnockedDownState = true →
      (CanState.checkState c).1 = true ∧ (CanState.checkState c).2 = c)
    ∧ (∀ c : CanState, (CanState.reset c).isKnockedDownState = false) := by
  refine ⟨?_, ?_, ?_, ?_⟩
  · intro c hf hup
    unfold CanState.checkState
    rw [if_neg (by simp [hf])]
    dsimp only
    split
    · next hlt => exact absurd (of_decide_eq_true hlt) (not_lt.mpr hup)
    · exact ⟨rfl, rfl⟩
  · intro c hf hup
    unfold CanState.checkState
    rw [if_neg (by simp [hf])]
    dsimp only
    split
    · exact ⟨rfl, rfl⟩
    · next hlt => exact absurd (decide_eq_true hup) (by simpa using hlt)
  · intro c hf
    unfold CanState.checkState
    rw [if_pos (by simp [hf])]
    exact ⟨rfl, rfl⟩
  · intro c
    unfold CanState.reset CanState.update
    simp

theorem claim_C3_checkState_witness :
    ((CanState.checkState CanState.init).1 = false
      ∧ (CanState.checkState CanState.init).2 = CanState.init)
    ∧ ((CanState.checkState fallenCanExample).1 = true
      ∧ (CanState.checkState fallenCanExample).2.isKnockedDownState = true)
    ∧ ((CanState.checkState stuckCanExample).1 = true
      ∧ (CanState.checkState stuckCanExample).2 = stuckCanExample) :=
  ⟨claim_C3_checkState.1 CanState.init rfl
      (by norm_num [CanState.worldUp, CanState.init, CanState.update, Quat.vmult, Quat.id]),
   claim_C3_checkState.2.1 fallenCanExample rfl
      (by norm_num [CanState.worldUp, fallenCanExample, CanState.init, CanState.update,
        Quat.vmult, Quat.id]),
   claim_C3_checkState.2.2.1 stuckCanExample rfl⟩

theorem claim_C9_reset_idempotent (c : CanState) :
    CanState.reset (CanState.reset c) = CanState.reset c := by
  unfold CanState.reset CanState.update
  simp


theorem claim_C10_nan_impact :
    findImpactPoint c10Points (.num (3/2))
      = some ⟨.nan, .num (3/2), .nan⟩ := by
  norm_num [findImpactPoint, c10Points, JSNum.ge, JSNum.le, JSNum.div, JSNum.sub,
    JSNum.add, JSNum.mul]


theorem claim_C6_counterexample :
    ((c6CexPoints.get ⟨0, by decide⟩).y - 1 < 0
      ∧ 0 < (c6CexPoints.get ⟨1, by decide⟩).y - 1)
    ∧ findImpactPoint (c6CexPoints.map Vec3.toJ) (.num 1) = none := by
  refine ⟨⟨by norm_num [c6CexPoints], by norm_num [c6CexPoints]⟩, ?_⟩
  norm_num [findImpactPoint, c6CexPoints, Vec3.toJ, JSNum.ge, JSNum.le]

/-- C6 (amended): the resolver scans for the first pair bracketing the
target height downward (previous at or above, current at or below); it
returns the no-impact result iff no such pair exists (rising sign changes
are not detected); on a first bracketing pair with distinct heights it
returns the exact linear interpolation; and every returned point has
height exactly the target. -/
theorem claim_C6_impact_resolution (l : List Vec3) (g : ℚ) :
    (findImpactPoint (l.map Vec3.toJ) (.num g) = none ↔ ¬ hasBracket g l)
    ∧ (∀ p q, firstBracket g l = some (p, q) → p.y ≠ q.y →
        findImpactPoint (l.map Vec3.toJ) (.num g) = some (Vec3.toJ (interpPoint g p q)))
    ∧ (∀ r, findImpactPoint (l.map Vec3.toJ) (.num g) = some r → r.y = .num g) := by
  induction l with
  | nil =>
      refine ⟨by simp [findImpactPoint, hasBracket], ?_, ?_⟩
      · intro p q hpq
        simp [firstBracket] at hpq
      · intro r hr
        simp [findImpactPoint] at hr
  | cons p tl ih =>
      cases tl with
      | nil =>
          refine ⟨by simp [findImpactPoint, hasBracket], ?_, ?_⟩
          · intro a b hab
            simp [firstBracket] at hab
          · intro r hr
            simp [findImpactPoint] at hr
      | cons q rest =>
          have hguard : (JSNum.ge (Vec3.toJ p).y (.num g) && JSNum.le (Vec3.toJ q).y (.num g))
              = decide (bracketsBelow g p q) := by
            simp only [Vec3.toJ, JSNum.ge, JSNum.le, bracketsBelow]
            by_cases h1 : g ≤ p.y <;> by_cases h2 : q.y ≤ g <;> simp [h1, h2]
          by_cases hb : bracketsBelow g p q
          · have hred : findImpactPoint ((p :: q :: rest).map Vec3.toJ) (.num g)
                = some
                    { x := JSNum.add (Vec3.toJ p).x
                        (JSNum.mul (JSNum.div (JSNum.sub (.num g) (Vec3.toJ p).y)
                          (JSNum.sub (Vec3.toJ q).y (Vec3.toJ p).y))
                          (JSNum.sub (Vec3.toJ q).x (Vec3.toJ p).x))
                      y := .num g
                      z := JSNum.add (Vec3.toJ p).z
                        (JSNum.mul (JSNum.div (JSNum.sub (.num g) (Vec3.toJ p).y)
                          (JSNum.sub (Vec3.toJ q).y (Vec3.toJ p).y))
                          (JSNum.sub (Vec3.toJ q).z (Vec3.toJ p).z)) } := by
              simp only [List.map_cons, findImpactPoint]
              rw [hguard, if_pos (decide_eq_true hb)]
            refine ⟨?_, ?_, ?_⟩
            · rw [hred]
              simp [hasBracket, hb]
            · intro a b hab hne
              unfold firstBracket at hab
              rw [if_pos hb] at hab
              simp only [Option.some.injEq, Prod.mk.injEq] at hab
              obtain ⟨rfl, rfl⟩ := hab
              rw [hred]
              have hden : q.y - p.y ≠ 0 := sub_ne_zero_of_ne (Ne.symm hne)
              simp [Vec3.toJ, interpPoint, JSNum.sub, JSNum.div, JSNum.mul, JSNum.add, hden]
            · intro r hr
              rw [hred] at hr
              simp only [Option.some.injEq] at hr
              rw [← hr]
          · have hred2 : findImpactPoint ((p :: q :: rest).map Vec3.toJ) (.num g)
                = findImpactPoint ((q :: rest).map Vec3.toJ) (.num g) := by
              simp only [List.map_cons, findImpactPoint]
              rw [hguard, if_neg (by simp [hb])]
            refine ⟨?_, ?_, ?_⟩
            · rw [hred2, ih.1]
              exact not_congr (by simp [hasBracket, hb])
            · intro a b hab hne
              unfold firstBracket at hab
              rw [if_neg hb] at hab
              rw [hred2]
              exact ih.2.1 a b hab hne
            · intro r hr
              rw [hred2] at hr
              exact ih.2.2 r hr

/-- Witness for C6 at a concrete arc: samples `(0,2,0)` then `(4,0,8)`
against target height 1 bracket downward with distinct heights, so the
resolver returns the interpolated crossing. -/
theorem claim_C6_impact_resolution_witness :
    findImpactPoint (([⟨0, 2, 0⟩, ⟨4, 0, 8⟩] : List Vec3).map Vec3.toJ) (.num 1)
      = some (Vec3.toJ (interpPoint 1 ⟨0, 2, 0⟩ ⟨4, 0, 8⟩)) :=
  (claim_C6_impact_resolution [⟨0, 2, 0⟩, ⟨4, 0, 8⟩] 1).2.1 ⟨0, 2, 0⟩ ⟨4, 0, 8⟩
    (by norm_num [firstBracket, bracketsBelow]) (by norm_num)

set_option maxRecDepth 10000 in
/-- Counterexample input for C4: after exactly 150 interval ticks the
binary64 timer value is the positive residue `1317 · 2⁻⁵⁵`, not zero, and
the `timerValue <= 0` expiry check does not yet pass. -/
theorem claim_C4_counterexample :
    displayedTimer (timerAfter 150) ≠ 0 ∧ ¬ timerAfter 150 ≤ 0 ∧ timerAfter 150 = 1317 := by
  refine ⟨by decide, by decide, by decide⟩

set_option maxRecDepth 1000000 in
/-- C4 (amended): the countdown stays strictly positive through tick 150
(so the expiry check first passes on tick 151), the value after tick 151
is at or below zero, the displayed value is never negative, and the
game-over trigger fires at most once (it is a no-op once the game is over
and it stops the interval when it fires). -/
theorem claim_C4_countdown :
    (∀ k : ℕ, 1 ≤ k → k ≤ 150 → 0 < timerAfter k)
    ∧ timerAfter 151 ≤ 0
    ∧ (∀ n : ℤ, 0 ≤ displayedTimer n)
    ∧ (∀ s : GameState, s.isGameOver = true → s.triggerGameOver = s)
    ∧ (∀ s : GameState, s.isGameOver = false →
        s.triggerGameOver.isGameOver = true ∧ s.triggerGameOver.timerRunning = false) := by
  refine ⟨?_, by decide, ?_, ?_, ?_⟩
  · have h : ∀ k ∈ Finset.Icc 1 150, 0 < timerAfter k := by decide
    intro k h1 h2
    exact h k (Finset.mem_Icc.mpr ⟨h1, h2⟩)
  · intro n
    exact le_max_left 0 n
  · intro s hs
    unfold GameState.triggerGameOver
    rw [if_pos hs]
  · intro s hs
    unfold GameState.triggerGameOver GameState.stopTimer
    rw [if_neg (by simp [hs])]
    exact ⟨rfl, rfl⟩

/-- Witness for C4 at concrete inputs: tick 1 leaves a positive value, and
triggering game over from the initial state marks the game over. -/
theorem claim_C4_countdown_witness :
    0 < timerAfter 1 ∧ initialState.triggerGameOver.isGameOver = true :=
  ⟨claim_C4_countdown.1 1 le_rfl (by norm_num),
   (claim_C4_countdown.2.2.2.2 initialState rfl).1⟩

/-- C8: each membership-changing site is observably idempotent — the admit
on throw (CANNON's `addBody`, which ignores an already-present body), the
guarded exclusions on pickup and on full reset — and none of them can
introduce a duplicate membership; moreover every reachable world body list
holds at most one copy of the slipper body. -/
theorem claim_C8_membership_guards :
    (∀ w : List ℕ, slipperId ∈ w → World.addBody w slipperId = w)
    ∧ (∀ w : List ℕ, slipperId ∉ w → removeSlipperGuarded w = w)
    ∧ (∀ w : List ℕ, w.count slipperId ≤ 1 →
        (World.addBody w slipperId).count slipperId ≤ 1)
    ∧ (∀ w : List ℕ, w.count slipperId ≤ 1 →
        (removeSlipperGuarded w).count slipperId ≤ 1)
    ∧ (∀ s : GameState, Reachable s → s.worldBodies.count slipperId ≤ 1) := by
  refine ⟨?_, ?_, ?_, ?_, ?_⟩
  · intro w h
    unfold World.addBody
    rw [if_pos h]
  · intro w h
    unfold removeSlipperGuarded
    rw [if_neg h]
  · intro w h
    unfold World.addBody
    split
    · exact h
    · next hmem => simp [List.count_append, List.count_eq_zero.mpr hmem]
  · exact fun w h => count_removeSlipperGuarded w h
  · exact fun s h => (coordInv_reachable s h).2.2

/-- Witness for C8 at concrete worlds: re-adding to a world already holding
the slipper and removing from one without it are both no-ops, counts stay
at most one, and the initial world qualifies. -/
theorem claim_C8_membership_guards_witness :
    World.addBody [slipperId] slipperId = [slipperId]
    ∧ removeSlipperGuarded [1] = [1]
    ∧ (World.addBody [] slipperId).count slipperId ≤ 1
    ∧ (removeSlipperGuarded [slipperId]).count slipperId ≤ 1
    ∧ initialState.worldBodies.count slipperId ≤ 1 :=
  ⟨claim_C8_membership_guards.1 [slipperId] (by decide),
   claim_C8_membership_guards.2.1 [1] (by decide),
   claim_C8_membership_guards.2.2.1 [] (by decide),
   claim_C8_membership_guards.2.2.2.1 [slipperId] (by decide),
   claim_C8_membership_guards.2.2.2.2 initialState Relation.ReflTransGen.refl⟩



/-- C2 at its failing input: with the holder at exactly `z = -100` the
holder is NOT in the legal throwing zone (the zone needs `z < -100`), yet
the release is not rejected — the slipper leaves the held mode, its body
is admitted to the world, and a launch velocity is assigned. -/
theorem claim_C2_foul_line_boundary :
    ¬ (c2Env.playerZ < FOUL_LINE_Z)
    ∧ (onMouseUp c2Env c2State).isSlipperHeld = false
    ∧ slipperId ∈ (onMouseUp c2Env c2State).worldBodies
    ∧ (onMouseUp c2Env c2State).slipper.vel = ⟨0, 0, -302⟩ := by
  have henv : (c2Env.locked && c2State.isSlipperHeld && c2State.isMouseDown
      && (c2Env.button == 0)) = true := rfl
  have hz : ¬ (FOUL_LINE_Z < c2Env.playerZ) := by norm_num [c2Env, FOUL_LINE_Z]
  refine ⟨by norm_num [c2Env, FOUL_LINE_Z], ?_, ?_, ?_⟩
  · unfold onMouseUp
    rw [if_pos henv, if_neg hz]
  · unfold onMouseUp
    rw [if_pos henv, if_neg hz]
    norm_num [c2State, World.addBody, slipperId, initialWorldBodies]
  · unfold onMouseUp
    rw [if_pos henv, if_neg hz]
    norm_num [c2Env, Quat.vmult, Quat.id, THROW_STRENGTH, SLIPPER_MASS]


/-- C7 (amended): on a locked left-button press while the slipper is on the
field, the pickup happens exactly when the holder is within the pickup
radius of the mesh's world position (squared-distance form); on pickup the
body's mass is zeroed, the body becomes static and is excluded from the
world, and the mesh is re-parented to the camera at the fixed grip offset
and rotation — while the body's linear and angular velocities are left
unchanged (not zeroed); out of range, the state is unchanged. -/
theorem claim_C7_pickup (locked : Bool) (p : Vec3) (s : GameState)
    (hlocked : locked = true) (hheld : s.isSlipperHeld = false)
    (hcount : s.worldBodies.count slipperId ≤ 1) :
    ((onMouseDown locked 0 p s).isSlipperHeld = true
      ↔ distSq p s.slipperMeshPos ≤ PICKUP_RADIUS ^ 2)
    ∧ (distSq p s.slipperMeshPos ≤ PICKUP_RADIUS ^ 2 →
        (onMouseDown locked 0 p s).slipper.mass = 0
        ∧ (onMouseDown locked 0 p s).slipper.btype = .static
        ∧ slipperId ∉ (onMouseDown locked 0 p s).worldBodies
        ∧ (onMouseDown locked 0 p s).slipperParent = .camera
        ∧ (onMouseDown locked 0 p s).slipperMeshPos = GRIP_POS
        ∧ (onMouseDown locked 0 p s).slipperMeshRot = .euler GRIP_ROT
        ∧ (onMouseDown locked 0 p s).slipper.vel = s.slipper.vel
        ∧ (onMouseDown locked 0 p s).slipper.angvel = s.slipper.angvel)
    ∧ (¬ distSq p s.slipperMeshPos ≤ PICKUP_RADIUS ^ 2 →
        onMouseDown locked 0 p s = s) := by
  subst hlocked
  have hgate : (true && ((0:ℕ) == 0)) = true := rfl
  unfold onMouseDown
  rw [if_pos hgate, if_neg (by simp [hheld])]
  by_cases hd : distSq p s.slipperMeshPos ≤ PICKUP_RADIUS ^ 2
  · rw [if_pos hd]
    exact ⟨by simp [hd],
      fun _ => ⟨rfl, rfl, not_mem_removeSlipperGuarded _ hcount, rfl, rfl, rfl, rfl, rfl⟩,
      fun h => absurd hd h⟩
  · rw [if_neg hd]
    exact ⟨by simp [hheld, hd], fun h => absurd h hd, fun _ => rfl⟩

/-- Counterexample to C7 as stated: a pickup within range succeeds but does
not zero the body's velocity — the velocity `(5,0,0)` survives the
Thrown → Held transition. -/
theorem claim_C7_counterexample :
    distSq ⟨0, 30, 0⟩ c7State.slipperMeshPos ≤ PICKUP_RADIUS ^ 2
    ∧ (onMouseDown true 0 ⟨0, 30, 0⟩ c7State).isSlipperHeld = true
    ∧ (onMouseDown true 0 ⟨0, 30, 0⟩ c7State).slipper.vel ≠ Vec3.zero := by
  have hgate : (true && ((0:ℕ) == 0)) = true := rfl
  refine ⟨by norm_num [distSq, c7State, Vec3.zero, PICKUP_RADIUS], ?_, ?_⟩
  · unfold onMouseDown
    rw [if_pos hgate, if_neg (by simp [c7State]),
      if_pos (by norm_num [distSq, c7State, Vec3.zero, PICKUP_RADIUS])]
  · unfold onMouseDown
    rw [if_pos hgate, if_neg (by simp [c7State]),
      if_pos (by norm_num [distSq, c7State, Vec3.zero, PICKUP_RADIUS])]
    norm_num [c7State, Vec3.zero]

/-- Witness for C7 at a concrete in-range pickup. -/
theorem claim_C7_pickup_witness :
    ((onMouseDown true 0 ⟨0, 30, 0⟩ c7State).isSlipperHeld = true
      ↔ distSq ⟨0, 30, 0⟩ c7State.slipperMeshPos ≤ PICKUP_RADIUS ^ 2)
    ∧ slipperId ∉ (onMouseDown true 0 ⟨0, 30, 0⟩ c7State).worldBodies
    ∧ (onMouseDown true 0 ⟨0, 30, 0⟩ c7State).slipper.vel = c7State.slipper.vel :=
  have h := claim_C7_pickup true ⟨0, 30, 0⟩ c7State rfl rfl (by decide)
  have hd : distSq ⟨0, 30, 0⟩ c7State.slipperMeshPos ≤ PICKUP_RADIUS ^ 2 := by
    norm_num [distSq, c7State, Vec3.zero, PICKUP_RADIUS]
  ⟨h.1, (h.2.1 hd).2.2.1, (h.2.1 hd).2.2.2.2.2.2.1⟩

theorem phase_eq_awaitingReset_iff (s : GameState) :
    phase s = .awaitingReset
      ↔ s.isGameOver = false ∧ s.isCanKnockedOverWaitingForReset = true := by
  unfold phase
  cases hg : s.isGameOver <;> cases hf : s.isCanKnockedOverWaitingForReset <;> simp

theorem checkCanStatePhase_of_waiting (s : GameState)
    (h : s.isCanKnockedOverWaitingForReset = true) : checkCanStatePhase s = s := by
  unfold checkCanStatePhase
  rw [if_pos (by simp [h])]

/-- C1 (amended): on a tick with the pointer locked, phase `AwaitingReset`,
slipper held, and the holder strictly behind the foul line, the
coordinator scores one point, returns the phase to `Idle`, stops the
countdown and restores its full duration, and resets the can; on a tick in
phase `AwaitingReset` where the pointer is not locked or either other
condition fails, none of these effects happen and the countdown state is
untouched. -/
theorem claim_C1_score_transition :
    (∀ (e : TickEnv) (s : GameState),
      phase s = .awaitingReset → s.isSlipperHeld = true →
      e.playerPos.z < FOUL_LINE_Z → e.locked = true →
      (animateTick e s).hitCount = s.hitCount + 1
      ∧ phase (animateTick e s) = .idle
      ∧ (animateTick e s).timerRunning = false
      ∧ (animateTick e s).timerValue = TIMER_DURATION
      ∧ (animateTick e s).can.isKnockedDownState = false
      ∧ (animateTick e s).can.pos = s.can.originalPosition
      ∧ (animateTick e s).can.quat = Quat.id
      ∧ (animateTick e s).can.vel = Vec3.zero
      ∧ (animateTick e s).can.angvel = Vec3.zero
      ∧ (animateTick e s).can.sleeping = true)
    ∧ (∀ (e : TickEnv) (s : GameState),
      phase s = .awaitingReset →
      ¬ (s.isSlipperHeld = true ∧ e.playerPos.z < FOUL_LINE_Z ∧ e.locked = true) →
      (animateTick e s).hitCount = s.hitCount
      ∧ phase (animateTick e s) = .awaitingReset
      ∧ (animateTick e s).timerRunning = s.timerRunning
      ∧ (animateTick e s).timerValue = s.timerValue
      ∧ (animateTick e s).can.isKnockedDownState = s.can.isKnockedDownState) := by
  constructor
  · intro e s hphase hheld hz hlocked
    obtain ⟨hg, hf⟩ := (phase_eq_awaitingReset_iff s).mp hphase
    obtain ⟨p1, p2, p3, p4, p5, p6, p7, p8, p9, p10⟩ := physicsStep_scalars e s
    obtain ⟨m1, m2, m3, m4, m5, m6, m7, m8, m9, m10, m11⟩ :=
      meshSyncPhase_scalars (physicsStep e s)
    have hflag2 : (meshSyncPhase (physicsStep e s)).isCanKnockedOverWaitingForReset
        = true := by rw [m4, p4, hf]
    unfold animateTick
    rw [if_neg (by simp [hg]), checkCanStatePhase_of_waiting _ hflag2]
    unfold scorePhase
    rw [hlocked, if_pos rfl]
    rw [if_pos (show (_ && _ && _) = true by
      rw [hflag2, m1, p1, hheld]
      simp [hz])]
    refine ⟨?_, ?_, ?_, ?_, ?_, ?_, ?_, ?_, ?_, ?_⟩ <;>
      simp [GameState.resetTimer, GameState.stopTimer, CanState.reset, CanState.update,
        phase, m3, p3, m5, p5, hg, m11, p10]
  · intro e s hphase hn
    obtain ⟨hg, hf⟩ := (phase_eq_awaitingReset_iff s).mp hphase
    obtain ⟨p1, p2, p3, p4, p5, p6, p7, p8, p9, p10⟩ := physicsStep_scalars e s
    obtain ⟨m1, m2, m3, m4, m5, m6, m7, m8, m9, m10, m11⟩ :=
      meshSyncPhase_scalars (physicsStep e s)
    have hflag2 : (meshSyncPhase (physicsStep e s)).isCanKnockedOverWaitingForReset
        = true := by rw [m4, p4, hf]
    unfold animateTick
    rw [if_neg (by simp [hg]), checkCanStatePhase_of_waiting _ hflag2]
    unfold scorePhase
    cases hl : e.locked with
    | false =>
        rw [if_neg (by simp)]
        refine ⟨by rw [m3, p3], ?_, by rw [m7, p7], by rw [m6, p6], by rw [m10, p9]⟩
        exact (phase_eq_awaitingReset_iff _).mpr ⟨by rw [m5, p5, hg], hflag2⟩
    | true =>
        rw [if_pos rfl]
        have hcond : ((meshSyncPhase (physicsStep e s)).isCanKnockedOverWaitingForReset
            && (meshSyncPhase (physicsStep e s)).isSlipperHeld
            && decide (e.playerPos.z < FOUL_LINE_Z)) = false := by
          rw [hflag2, m1, p1]
          cases hh : s.isSlipperHeld
          · simp
          · by_cases hz : e.playerPos.z < FOUL_LINE_Z
            · exact absurd ⟨hh, hz, hl⟩ hn
            · simp [hz]
        dsimp only
        rw [hcond, if_neg (by simp)]
        refine ⟨by rw [m3, p3], ?_, by rw [m7, p7], by rw [m6, p6], by rw [m10, p9]⟩
        exact (phase_eq_awaitingReset_iff _).mpr ⟨by rw [m5, p5, hg], hflag2⟩




/-- Counterexample input for C1 as stated: phase `AwaitingReset`, slipper
held, holder at `z = -150 < -100` — the claim's three conditions all hold —
yet because the pointer is not locked the tick performs no part of the
transition: the score stays 0 and the phase stays `AwaitingReset` with the
countdown still running. -/
theorem claim_C1_counterexample :
    phase c1State = .awaitingReset
    ∧ c1State.isSlipperHeld = true
    ∧ c1Env.playerPos.z < FOUL_LINE_Z
    ∧ (animateTick c1Env c1State).hitCount = c1State.hitCount
    ∧ (animateTick c1Env c1State).isCanKnockedOverWaitingForReset = true
    ∧ (animateTick c1Env c1State).timerRunning = true :=
  ⟨rfl, rfl, by norm_num [c1Env, FOUL_LINE_Z], rfl, rfl, rfl⟩

/-- Witness for C1 (amended) at a concrete locked tick: from `c1State` with
the pointer locked and the holder at `z = -150`, the tick scores the point
and returns to `Idle`. -/
theorem claim_C1_score_transition_witness :
    (animateTick c1EnvLocked c1State).hitCount = c1State.hitCount + 1
    ∧ phase (animateTick c1EnvLocked c1State) = .idle
    ∧ (animateTick c1EnvLocked c1State).timerRunning = false :=
  have h := claim_C1_score_transition.1 c1EnvLocked c1State rfl rfl
    (by norm_num [c1EnvLocked, c1Env, FOUL_LINE_Z]) rfl
  ⟨h.1, h.2.1, h.2.2.1⟩

theorem scorePhase_timerRunning_le (locked : Bool) (z : ℚ) (s : GameState)
    (h : (scorePhase locked z s).timerRunning = true) : s.timerRunning = true := by
  unfold scorePhase at h
  split at h
  · dsimp only at h
    split at h
    · simp [GameState.resetTimer, GameState.stopTimer] at h
    · exact h
  · exact h

theorem scorePhase_cases (locked : Bool) (z : ℚ) (s : GameState) :
    scorePhase locked z s = s ∨ (scorePhase locked z s).timerRunning = false := by
  unfold scorePhase
  split
  · dsimp only
    split
    · right
      simp [GameState.resetTimer, GameState.stopTimer]
    · left
      rfl
  · left
    rfl

theorem checkState_sets_flag (c : CanState) (h : (CanState.checkState c).1 = true) :
    (CanState.checkState c).2.isKnockedDownState = true := by
  unfold CanState.checkState at h ⊢
  by_cases hc : c.isKnockedDownState = true
  · rw [if_pos hc]
    exact hc
  · rw [if_neg hc] at h ⊢
    simp only [] at h ⊢
    by_cases hd : (CanState.worldUp c).y < 1/2
    · rw [if_pos (decide_eq_true hd)]
    · rw [if_neg (by simpa using hd)] at h
      exact absurd h (by simp)

/-- C5: (1) in every reachable state the countdown interval is scheduled
iff the phase is `AwaitingReset`; (2) a tick starts the timer only on the
false→true rising edge of the fallen classification (the sticky flag was
clear before, is set after, and the waiting phase is entered with a fresh
full duration — edge-triggered, so a knockdown starts it exactly once);
(3) a successful score stops the timer; (4) expiry stops it; (5) any
component reset stops it; (6) a restart stops it. -/
theorem claim_C5_timer_iff_phase :
    (∀ s : GameState, Reachable s → (s.timerRunning = true ↔ phase s = .awaitingReset))
    ∧ (∀ (e : TickEnv) (s : GameState),
        s.timerRunning = false → (animateTick e s).timerRunning = true →
        s.can.isKnockedDownState = false
        ∧ s.isCanKnockedOverWaitingForReset = false
        ∧ (animateTick e s).can.isKnockedDownState = true
        ∧ (animateTick e s).isCanKnockedOverWaitingForReset = true
        ∧ (animateTick e s).timerValue = TIMER_DURATION)
    ∧ (∀ (z : ℚ) (s : GameState),
        s.isCanKnockedOverWaitingForReset = true → s.isSlipperHeld = true →
        z < FOUL_LINE_Z → (scorePhase true z s).timerRunning = false)
    ∧ (∀ s : GameState, s.isGameOver = false → s.triggerGameOver.timerRunning = false)
    ∧ (∀ (full : Bool) (s : GameState),
        (GameState.resetGameComponents full s).timerRunning = false)
    ∧ (∀ s : GameState, s.restartGame.timerRunning = false) := by
  refine ⟨?_, ?_, ?_, ?_, ?_, ?_⟩
  · intro s h
    rw [(coordInv_reachable s h).1]
    unfold phase
    cases hg : s.isGameOver <;> cases hf : s.isCanKnockedOverWaitingForReset <;> simp
  · intro e s h0 h1
    by_cases hg : s.isGameOver = true
    · rw [animateTick, if_pos hg, h0] at h1
      exact absurd h1 (by simp)
    · obtain ⟨p1, p2, p3, p4, p5, p6, p7, p8, p9, p10⟩ := physicsStep_scalars e s
      obtain ⟨m1, m2, m3, m4, m5, m6, m7, m8, m9, m10, m11⟩ :=
        meshSyncPhase_scalars (physicsStep e s)
      have hrun2 : (meshSyncPhase (physicsStep e s)).timerRunning = false := by
        rw [m7, p7, h0]
      rw [animateTick, if_neg hg] at h1
      by_cases hw : ((meshSyncPhase (physicsStep e s)).isCanKnockedOverWaitingForReset
          || (meshSyncPhase (physicsStep e s)).isGameOver) = true
      · rw [checkCanStatePhase, if_pos hw] at h1
        exact absurd (scorePhase_timerRunning_le _ _ _ h1) (by simp [hrun2])
      · by_cases hedge : ((meshSyncPhase (physicsStep e s)).can.checkState.1
            && !(meshSyncPhase (physicsStep e s)).can.isKnockedDownState) = true
        · have h3 : checkCanStatePhase (meshSyncPhase (physicsStep e s))
              = GameState.startTimer
                  { meshSyncPhase (physicsStep e s) with
                    can := (meshSyncPhase (physicsStep e s)).can.checkState.2
                    isCanKnockedOverWaitingForReset := true } := by
            rw [checkCanStatePhase, if_neg hw]
            dsimp only
            rw [if_pos hedge]
          have hwasfalse : (meshSyncPhase (physicsStep e s)).can.isKnockedDownState
              = false := by
            cases hww : (meshSyncPhase (physicsStep e s)).can.isKnockedDownState
            · rfl
            · rw [hww] at hedge
              simp at hedge
          have hfired : (meshSyncPhase (physicsStep e s)).can.checkState.1 = true := by
            cases hff : (meshSyncPhase (physicsStep e s)).can.checkState.1
            · rw [hff] at hedge
              simp at hedge
            · rfl
          have hflagfalse : (meshSyncPhase (physicsStep e s)).isCanKnockedOverWaitingForReset
              = false := by
            cases hcc : (meshSyncPhase (physicsStep e s)).isCanKnockedOverWaitingForReset
            · rfl
            · rw [hcc] at hw
              simp at hw
          unfold animateTick
          rw [if_neg hg, h3]
          rcases scorePhase_cases e.locked e.playerPos.z
              (GameState.startTimer
                { meshSyncPhase (physicsStep e s) with
                  can := (meshSyncPhase (physicsStep e s)).can.checkState.2
                  isCanKnockedOverWaitingForReset := true }) with hsc | hsc
          · rw [hsc]
            refine ⟨by rw [← p9, ← m10]; exact hwasfalse,
              by rw [← p4, ← m4]; exact hflagfalse, ?_, rfl, rfl⟩
            simp only [GameState.startTimer]
            exact checkState_sets_flag _ hfired
          · rw [h3] at h1
            exact absurd h1 (by simp [hsc])
        · have h3 : checkCanStatePhase (meshSyncPhase (physicsStep e s))
              = { meshSyncPhase (physicsStep e s) with
                  can := (meshSyncPhase (physicsStep e s)).can.checkState.2 } := by
            rw [checkCanStatePhase, if_neg hw]
            dsimp only
            rw [if_neg hedge]
          rw [h3] at h1
          have := scorePhase_timerRunning_le _ _ _ h1
          simp [hrun2] at this
  · intro z s hf hh hz
    unfold scorePhase
    rw [if_pos rfl]
    dsimp only
    rw [if_pos (by simp [hf, hh, hz])]
    simp [GameState.resetTimer, GameState.stopTimer]
  · intro s hs
    unfold GameState.triggerGameOver GameState.stopTimer
    rw [if_neg (by simp [hs])]
  · intro full s
    unfold GameState.resetGameComponents GameState.stopTimer GameState.resetTimer
    dsimp only
    split <;> rfl
  · intro s
    unfold GameState.restartGame GameState.resetGameComponents GameState.stopTimer
      GameState.resetTimer
    dsimp only
    rfl

/-- Witness for C5 at concrete inputs: the initial state satisfies the
timer-iff-phase relation; a concrete unlocked tick that knocks the can
over (environment `c1Env` tilts it to orientation `(1,0,0,0)`) exhibits
the rising edge; a concrete score and the game-over trigger stop the
timer. -/
theorem claim_C5_timer_iff_phase_witness :
    (initialState.timerRunning = true ↔ phase initialState = .awaitingReset)
    ∧ (c2State.can.isKnockedDownState = false
        ∧ c2State.isCanKnockedOverWaitingForReset = false
        ∧ (animateTick c1Env c2State).can.isKnockedDownState = true
        ∧ (animateTick c1Env c2State).isCanKnockedOverWaitingForReset = true
        ∧ (animateTick c1Env c2State).timerValue = TIMER_DURATION)
    ∧ (scorePhase true (-150) c1State).timerRunning = false
    ∧ initialState.triggerGameOver.timerRunning = false :=
  ⟨claim_C5_timer_iff_phase.1 initialState Relation.ReflTransGen.refl,
   claim_C5_timer_iff_phase.2.1 c1Env c2State rfl
     (by norm_num [animateTick, physicsStep, meshSyncPhase, checkCanStatePhase,
        scorePhase, GameState.startTimer, CanState.update, CanState.checkState,
        CanState.worldUp, Quat.vmult, c1Env, c2State, CanState.init, Quat.id,
        Vec3.zero, initialWorldBodies, slipperId]),
   claim_C5_timer_iff_phase.2.2.1 (-150) c1State rfl rfl
     (by norm_num [FOUL_LINE_Z]),
   claim_C5_timer_iff_phase.2.2.2.1 initialState rfl⟩
